import Mathlib

/-!
Verification development for a request-proxying database agent.

The program receives a chat conversation, forwards it to an LLM completion
API augmented with seven PlanetScale tools, and streams the response back as
server-sent events. We embed the pure core of the source: the upstream API
client (header construction, result normalization, update/reference event
emission), the zod entity parsing, the tool registry, and the stream
translator that frames chunks, updates and references as SSE byte strings.
-/

namespace DbAgent

/-- JSON values, as produced by parsing a response body or handed to
JSON.stringify. Numbers are modelled as integers (all numeric values that
occur in the embedded code paths are integral). -/
inductive Json where
  | null : Json
  | bool (b : Bool) : Json
  | num (n : Int) : Json
  | str (s : String) : Json
  | arr (elems : List Json) : Json
  | obj (fields : List (String × Json)) : Json
deriving Repr

/-- One hexadecimal digit, lower case, as used by JSON string escapes. -/
def hexDigit (n : Nat) : String :=
  String.singleton (("0123456789abcdef".data.getD n '0'))

/-- JSON.stringify escaping of a single character. -/
def escChar (c : Char) : String :=
  if c = '"' then "\\\""
  else if c = '\\' then "\\\\"
  else if c = '\n' then "\\n"
  else if c = '\r' then "\\r"
  else if c = '\t' then "\\t"
  else if c.toNat = 8 then "\\b"
  else if c.toNat = 12 then "\\f"
  else if c.toNat < 32 then "\\u00" ++ hexDigit (c.toNat / 16) ++ hexDigit (c.toNat % 16)
  else String.singleton c

/-- JSON.stringify escaping of a string body. -/
def escapeString (s : String) : String :=
  String.join (s.data.map escChar)

mutual

/-- JSON.stringify: compact serialization, object keys in insertion order. -/
def serialize : Json → String
  | Json.null => "null"
  | Json.bool b => cond b "true" "false"
  | Json.num n => toString n
  | Json.str s => "\"" ++ escapeString s ++ "\""
  | Json.arr xs => "[" ++ serializeItems xs ++ "]"
  | Json.obj fs => "\x7b" ++ serializeFields fs ++ "\x7d"

/-- Comma-separated serialization of array elements. -/
def serializeItems : List Json → String
  | [] => ""
  | [x] => serialize x
  | x :: y :: xs => serialize x ++ "," ++ serializeItems (y :: xs)

/-- Comma-separated serialization of object fields. -/
def serializeFields : List (String × Json) → String
  | [] => ""
  | [(k, v)] => "\"" ++ escapeString k ++ "\":" ++ serialize v
  | (k, v) :: f :: fs =>
      "\"" ++ escapeString k ++ "\":" ++ serialize v ++ "," ++ serializeFields (f :: fs)

end

/-- Field lookup on a JSON object (none on non-objects or missing keys). -/
def getField : Json → String → Option Json
  | Json.obj fs, k => (fs.find? (fun f => f.1 == k)).map (fun f => f.2)
  | _, _ => none

/-! ## Upstream API client: request construction (PscaleClient.fetch) -/

/-- The options object the caller may pass to PscaleClient.fetch
(the RequestInit of the Fetch API, restricted to the properties the
embedded code reads or spreads: headers and method). A field is none
when the caller did not set that property. -/
structure RequestInit where
  headers : Option (List (String × String)) := none
  method : Option String := none
deriving Repr, DecidableEq

/-- JavaScript object property assignment: overwrite in place when the key
exists, append otherwise (insertion-order semantics of object literals). -/
def objSet (o : List (String × String)) (k v : String) : List (String × String) :=
  if o.any (fun p => p.1 == k) then
    o.map (fun p => if p.1 == k then (k, v) else p)
  else
    o ++ [(k, v)]

/-- JavaScript object spread: copy every property of ext onto base, in order. -/
def objSpread (base ext : List (String × String)) : List (String × String) :=
  ext.foldl (fun acc kv => objSet acc kv.1 kv.2) base

/-- First-match header lookup. -/
def headerLookup (hs : List (String × String)) (k : String) : Option String :=
  (hs.find? (fun p => p.1 == k)).map (fun p => p.2)

/-- The effective request method of PscaleClient.fetch:
`init?.method ?? "GET"`. -/
def requestMethod (init : Option RequestInit) : String :=
  (init.bind RequestInit.method).getD "GET"

/-- The headers object the global fetch receives in PscaleClient.fetch.
The source builds the literal
`\x7b headers: \x7b Authorization: pscaleAuth, ...init?.headers \x7d, ...init, method \x7d`:
the inner literal merges the credential with the caller headers, but the
subsequent spread of init then replaces the whole headers property with
the caller-supplied headers object whenever init has one. -/
def requestHeaders (auth : String) (init : Option RequestInit) :
    List (String × String) :=
  let merged := objSpread [("Authorization", auth)] ((init.bind RequestInit.headers).getD [])
  match init with
  | none => merged
  | some i =>
    match i.headers with
    | none => merged
    | some hs => hs

/-! ## Upstream API client: response normalization and events -/

/-- An upstream HTTP response as this program observes it: status, status
text, and the JSON-decoded body. -/
structure HttpResp where
  status : Nat
  statusText : String
  body : Json
deriving Repr

/-- Response.ok of the Fetch API: status in the range 200..299. -/
def respOk (status : Nat) : Bool :=
  Nat.ble 200 status && Nat.ble status 299

/-- The uniform result value PscaleClient.fetch resolves to:
`\x7b ok: true, data \x7d` or `\x7b ok: false, status, statusText, body \x7d`. -/
inductive FetchResult where
  | success (data : Json) : FetchResult
  | failure (status : Nat) (statusText : String) (body : Json) : FetchResult
deriving Repr

/-- The two event kinds the PscaleClient emitter produces. -/
inductive PsEvent where
  | update (content : String) : PsEvent
  | reference (refs : List Json) : PsEvent
deriving Repr

/-- Whether an event is a reference event. -/
def PsEvent.isReference : PsEvent → Bool
  | PsEvent.reference _ => true
  | _ => false

/-- PscaleClient.fetch, given the HTTP response the network returns:
emits the pre-request update naming method and path, then on a non-2xx
status emits the error update and resolves to failure, and on a 2xx
status emits the OK update and resolves to success with the parsed body.
Returns the result together with the emitted events in order. -/
def psFetch (path : String) (init : Option RequestInit) (resp : HttpResp) :
    FetchResult × List PsEvent :=
  let method := requestMethod init
  let preEv := PsEvent.update ("`" ++ method ++ " " ++ path ++ "...")
  if respOk resp.status then
    (FetchResult.success resp.body, [preEv, PsEvent.update "OK`  \n\n"])
  else
    (FetchResult.failure resp.status resp.statusText resp.body,
      [preEv, PsEvent.update ("Error " ++ toString resp.status ++ "`  \n")])

/-! ## Entity parsing (the zod schemas PSDb and the wrappers around them) -/

/-- A PlanetScale database record as the PSDb zod schema normalizes it:
`z.object(\x7b id: z.string(), name: z.string() \x7d)`. -/
structure PSDb where
  id : String
  name : String
deriving Repr, DecidableEq

/-- The JSON rendering of a parsed PSDb record (zod strips unknown keys). -/
def psdbToJson (db : PSDb) : Json :=
  Json.obj [("id", Json.str db.id), ("name", Json.str db.name)]

/-- PSDb.parse: requires an object with string fields id and name;
throws (error) otherwise. -/
def parsePSDb (j : Json) : Except String PSDb :=
  match j with
  | Json.obj _ =>
    match getField j "id", getField j "name" with
    | some (Json.str i), some (Json.str n) => Except.ok ⟨i, n⟩
    | _, _ => Except.error "invalid PSDb"
  | _ => Except.error "expected object"

/-- `z.object(\x7b data: z.array(PSDb) \x7d).parse(x).data`: the data field
must be an array of PSDb records. -/
def parseDbList (j : Json) : Except String (List PSDb) :=
  match getField j "data" with
  | some (Json.arr xs) => xs.mapM parsePSDb
  | some _ => Except.error "expected array"
  | none => Except.error "missing data"

/-- `z.object(\x7b data: PSDb \x7d).parse(x).data`: the data field must be a
PSDb record. -/
def parseDbSingle (j : Json) : Except String PSDb :=
  match getField j "data" with
  | some dj => parsePSDb dj
  | none => Except.error "missing data"

/-- One Domain Entity Reference, as built by #emitDatabasesReference. -/
def dbRefJson (db : PSDb) : Json :=
  Json.obj
    [("type", Json.str "planetscale.database"),
     ("id", Json.str db.id),
     ("data", psdbToJson db),
     ("metadata",
       Json.obj
         [("display_name", Json.str db.name),
          ("display_icon",
            Json.str "https://avatars.githubusercontent.com/u/35612527?s=64&v=4")])]

/-- PscaleClient.listDatabases, given the HTTP response to GET /databases.
On failure the result is returned as-is; on success the body is parsed with
zod .parse, which throws (modelled as Except.error) when the body does not
match, and otherwise emits one reference event before returning the result.
First component: the events emitted before the method returns or throws. -/
def listDatabases (resp : HttpResp) : List PsEvent × Except String FetchResult :=
  let r := psFetch "/databases" none resp
  match r.1 with
  | FetchResult.failure st stx b => (r.2, Except.ok (FetchResult.failure st stx b))
  | FetchResult.success data =>
    match parseDbList data with
    | Except.error e => (r.2, Except.error e)
    | Except.ok dbs =>
        (r.2 ++ [PsEvent.reference (dbs.map dbRefJson)],
         Except.ok (FetchResult.success data))

/-- PscaleClient.getDatabase, given the HTTP response to GET /databases/name.
Same shape as listDatabases but parsing a single record and emitting a
one-element reference list. -/
def getDatabase (name : String) (resp : HttpResp) :
    List PsEvent × Except String FetchResult :=
  let r := psFetch ("/databases/" ++ name) none resp
  match r.1 with
  | FetchResult.failure st stx b => (r.2, Except.ok (FetchResult.failure st stx b))
  | FetchResult.success data =>
    match parseDbSingle data with
    | Except.error e => (r.2, Except.error e)
    | Except.ok db =>
        (r.2 ++ [PsEvent.reference ([db].map dbRefJson)],
         Except.ok (FetchResult.success data))

/-! ## Completion chunks and the stream translator (handleRequest) -/

/-- The delta of one streamed choice (the content property is omitted from
the serialization when absent, as JSON.stringify omits undefined). -/
structure Delta where
  content : Option String := none
deriving Repr, DecidableEq

/-- One choice of a completion chunk. -/
structure Choice where
  index : Nat
  delta : Delta
  finish_reason : Option String
deriving Repr, DecidableEq

/-- A ChatCompletionChunk as the translator observes and serializes it. -/
structure Chunk where
  id : String
  object : String
  created : Nat
  model : String
  choices : List Choice
deriving Repr, DecidableEq

/-- JSON rendering of a delta (undefined content is omitted). -/
def deltaToJson (d : Delta) : Json :=
  match d.content with
  | some s => Json.obj [("content", Json.str s)]
  | none => Json.obj []

/-- JSON rendering of a choice (a null finish reason is serialized as null). -/
def choiceToJson (ch : Choice) : Json :=
  Json.obj
    [("index", Json.num ch.index),
     ("delta", deltaToJson ch.delta),
     ("finish_reason",
       match ch.finish_reason with
       | some s => Json.str s
       | none => Json.null)]

/-- JSON rendering of a chunk, keys in the insertion order the source uses. -/
def chunkToJson (c : Chunk) : Json :=
  Json.obj
    [("id", Json.str c.id),
     ("object", Json.str c.object),
     ("created", Json.num c.created),
     ("model", Json.str c.model),
     ("choices", Json.arr (c.choices.map choiceToJson))]

/-- `chunk.choices.at(0)?.finish_reason === "tool_calls"`: true exactly when
the chunk has a first choice whose finish reason is the string tool_calls. -/
def isToolCallsFinish (c : Chunk) : Bool :=
  (c.choices.head?.bind Choice.finish_reason) == some "tool_calls"

/-- The SSE frame of a chunk: `data: ` ++ JSON.stringify(chunk) ++ two
newlines. -/
def chunkFrame (c : Chunk) : String :=
  "data: " ++ serialize (chunkToJson c) ++ "\n\n"

/-- The chunk handler of handleRequest: suppresses a chunk whose first
choice finished with tool_calls, and frames every other chunk. -/
def onChunk (c : Chunk) : Option String :=
  if isToolCallsFinish c then none else some (chunkFrame c)

/-- Day of the month, 1-based, of a Unix epoch timestamp in milliseconds:
the value of `new Date().getDate()`, computed with the standard civil
calendar algorithm (days since epoch shifted to an era of 400-year cycles,
then year, day of year and day of month extracted). -/
def jsGetDate (t : Nat) : Nat :=
  let z := t / 86400000 + 719468
  let doe := z % 146097
  let yoe := (doe - doe / 1460 + doe / 36524 - doe / 146096) / 365
  let doy := doe - (365 * yoe + yoe / 4 - yoe / 100)
  let mp := (5 * doy + 2) / 153
  doy - (153 * mp + 2) / 5 + 1

/-- The chunk the update handler of handleRequest synthesizes for a
progress update string, at current time now (epoch milliseconds):
fixed id, object and model, created = new Date().getDate(), and one choice
carrying the update text as delta content with a null finish reason. -/
def mkUpdateChunk (now : Nat) (update : String) : Chunk :=
  { id := "chunk",
    object := "chat.completion.chunk",
    created := jsGetDate now,
    model := "gpt-4-1106-preview",
    choices := [{ index := 0, delta := { content := some update }, finish_reason := none }] }

/-- The update handler of handleRequest: synthesize the chunk and frame it
exactly like a model chunk. -/
def onUpdate (now : Nat) (update : String) : String :=
  "data: " ++ serialize (chunkToJson (mkUpdateChunk now update)) ++ "\n\n"

/-- The reference handler of handleRequest: a named SSE event carrying the
JSON-serialized reference array. -/
def onReference (refs : List Json) : String :=
  "event: copilot_references\ndata: " ++ serialize (Json.arr refs) ++ "\n\n"

/-! ## Tool registry (the tools array passed to runTools) -/

/-- The operation a tool handler invokes on the PscaleClient instance. -/
inductive ClientCall where
  | listDatabasesCall : ClientCall
  | getDatabaseCall (name : String) : ClientCall
  | fetchCall (path : String) : ClientCall
deriving Repr, DecidableEq

/-- The argument object a tool handler receives (the union of the fields the
seven handlers read; each handler reads only its own declared parameters). -/
structure ToolArgs where
  name : String := ""
  branch : String := ""
  requestID : Int := 0
deriving Repr, DecidableEq

/-- One parameter of a tool schema: property name and declared JSON type. -/
structure ToolParam where
  pname : String
  ptype : String
deriving Repr, DecidableEq

/-- One declared tool: its function name, description, parameter schema
with its required list, and its handler. -/
structure ToolDecl where
  name : String
  description : String
  properties : List ToolParam
  required : List String
  handler : ToolArgs → ClientCall

/-- The seven tools declared in the runTools call, in source order. -/
def toolRegistry : List ToolDecl :=
  [{ name := "listDatabases",
     description := "List all PlanetScale databases.",
     properties := [],
     required := [],
     handler := fun _ => ClientCall.listDatabasesCall },
   { name := "getDatabase",
     description := "Get information about a single PlanetScale database.",
     properties := [⟨"name", "string"⟩],
     required := ["name"],
     handler := fun a => ClientCall.getDatabaseCall a.name },
   { name := "listBranches",
     description := "List all database branches for the given database.",
     properties := [⟨"name", "string"⟩],
     required := ["name"],
     handler := fun a => ClientCall.fetchCall ("/databases/" ++ a.name ++ "/branches") },
   { name := "getBranch",
     description := "Get a specific branch of a database.",
     properties := [⟨"name", "string"⟩, ⟨"branch", "string"⟩],
     required := ["name", "branch"],
     handler := fun a =>
       ClientCall.fetchCall ("/databases/" ++ a.name ++ "/branches/" ++ a.branch) },
   { name := "getBranchSchema",
     description := "Get the schema of a specific branch of a database.",
     properties := [⟨"name", "string"⟩, ⟨"branch", "string"⟩],
     required := ["name", "branch"],
     handler := fun a =>
       ClientCall.fetchCall
         ("/databases/" ++ a.name ++ "/branches/" ++ a.branch ++ "/schema") },
   { name := "listDeployRequests",
     description := "List all deploy requests for the given database.",
     properties := [⟨"name", "string"⟩],
     required := ["name"],
     handler := fun a => ClientCall.fetchCall ("/databases/" ++ a.name ++ "/deploy-requests") },
   { name := "getDeployRequest",
     description := "Get a specific deploy request for a database.",
     properties := [⟨"name", "string"⟩, ⟨"requestID", "number"⟩],
     required := ["name", "requestID"],
     handler := fun a =>
       ClientCall.fetchCall
         ("/databases/" ++ a.name ++ "/deploy-requests/" ++ toString a.requestID) }]

/-- The upstream path a client call hits (listDatabases fetches /databases,
getDatabase fetches /databases/name, a raw fetch hits its own path). -/
def ClientCall.path : ClientCall → String
  | ClientCall.listDatabasesCall => "/databases"
  | ClientCall.getDatabaseCall name => "/databases/" ++ name
  | ClientCall.fetchCall p => p

/-! ## Run traces: the outbound stream and its termination (handleRequest) -/

/-- One event reaching the ReadableStream of handleRequest: a model chunk,
a client update (paired with the wall-clock instant the handler fires), a
client reference event, the runner signalling end, or the caller aborting
the stream. -/
inductive RunEvent where
  | chunkEv (c : Chunk) : RunEvent
  | updateEv (now : Nat) (update : String) : RunEvent
  | referenceEv (refs : List Json) : RunEvent
  | endEv : RunEvent
  | abortEv : RunEvent

/-- Modelled from the spec: the completion runner and the Web Streams
controller live outside this repository (the OpenAI SDK and the runtime).
Per the cancellation contract — stream cancel calls runner.abort(), after
which the runner issues no further tool calls and delivers no further
events, and after controller.close() nothing more is enqueued — a run trace
is cut at its first terminal event (end or abort); later events are never
delivered to the handlers. -/
def delivered : List RunEvent → List RunEvent
  | [] => []
  | RunEvent.endEv :: _ => [RunEvent.endEv]
  | RunEvent.abortEv :: _ => [RunEvent.abortEv]
  | e :: rest => e :: delivered rest

/-- The frame (if any) a delivered event makes the handlers enqueue:
chunks go through the tool_calls filter, updates and references are always
framed, end closes the stream with no frame, and abort aborts the runner
with no frame. -/
def frameOf : RunEvent → Option String
  | RunEvent.chunkEv c => onChunk c
  | RunEvent.updateEv now u => some (onUpdate now u)
  | RunEvent.referenceEv refs => some (onReference refs)
  | RunEvent.endEv => none
  | RunEvent.abortEv => none

/-- All frames written to the outbound stream over a run trace. -/
def outFrames (tr : List RunEvent) : List String :=
  (delivered tr).filterMap frameOf

/-! ## Helper lemmas -/

/-- The day of the month extracted from any epoch instant is between 1
and 31. -/
theorem jsGetDate_bounds (t : Nat) : 1 ≤ jsGetDate t ∧ jsGetDate t ≤ 31 := by
  have h : ∀ d : Nat, 1 ≤ d - (153 * ((5 * d + 2) / 153) + 2) / 5 + 1 ∧
      d - (153 * ((5 * d + 2) / 153) + 2) / 5 + 1 ≤ 31 := fun d => by omega
  exact h _

/-- An abort event cuts delivery: everything after it is never delivered. -/
theorem delivered_cut_abort (pre post : List RunEvent) :
    delivered (pre ++ RunEvent.abortEv :: post) = delivered (pre ++ [RunEvent.abortEv]) := by
  induction pre with
  | nil => rfl
  | cons e es ih => cases e <;> simp [delivered, ih]

/-- An end event cuts delivery: everything after it is never delivered. -/
theorem delivered_cut_end (pre post : List RunEvent) :
    delivered (pre ++ RunEvent.endEv :: post) = delivered (pre ++ [RunEvent.endEv]) := by
  induction pre with
  | nil => rfl
  | cons e es ih => cases e <;> simp [delivered, ih]

/-! ## Claim theorems -/

/-- Claim C1 (code bug evidence): the spec states that every request issued
by PscaleClient.fetch carries the credential Authorization header, with
caller-supplied headers merged in but never overriding it. The source
spreads init after the headers property, so a caller-supplied headers
object replaces the merged headers entirely: with init
`\x7b headers: \x7b X-Custom: 1 \x7d \x7d` the request is sent with only
the X-Custom header and no Authorization header, while with no init the
credential is present. -/
theorem claim1_credential_header_dropped :
    requestHeaders "tokenID:token" (some { headers := some [("X-Custom", "1")] })
      = [("X-Custom", "1")]
    ∧ headerLookup
        (requestHeaders "tokenID:token" (some { headers := some [("X-Custom", "1")] }))
        "Authorization" = none
    ∧ requestHeaders "tokenID:token" none = [("Authorization", "tokenID:token")] :=
  ⟨rfl, rfl, rfl⟩

/-- Claim C2 (counterexample): the claim states that a 2xx response whose
body does not match the expected entity shape still makes listDatabases
return the success result without throwing. In the source the zod .parse
throws, so on the 2xx response with body `\x7b\x7d` the operation throws
(the outcome is an error, not the success result). -/
theorem claim2_parse_failure_throws_cex :
    (listDatabases ⟨200, "OK", Json.obj []⟩).2 = Except.error "missing data"
    ∧ (listDatabases ⟨200, "OK", Json.obj []⟩).2 ≠ Except.ok (FetchResult.success (Json.obj [])) :=
  ⟨rfl, fun h => Except.noConfusion h⟩

/-- Claim C2 (amended): for every 2xx response to listDatabases or
getDatabase whose body does not match the expected entity shape, the zod
parse failure propagates: the operation throws the parse error instead of
returning the success result. -/
theorem claim2_amended_parse_failure_throws (resp : HttpResp) (name e : String) :
    (respOk resp.status = true → parseDbList resp.body = Except.error e →
      (listDatabases resp).2 = Except.error e)
    ∧ (respOk resp.status = true → parseDbSingle resp.body = Except.error e →
      (getDatabase name resp).2 = Except.error e) := by
  constructor
  · intro h hp
    simp [listDatabases, psFetch, h, hp]
  · intro h hp
    simp [getDatabase, psFetch, h, hp]

/-- Claim C2 (witness): the amended theorem applied to the concrete 2xx
response with the non-matching body `\x7b\x7d`. -/
theorem claim2_amended_witness :
    (listDatabases ⟨201, "Created", Json.obj []⟩).2 = Except.error "missing data"
    ∧ (getDatabase "mydb" ⟨201, "Created", Json.obj []⟩).2 = Except.error "missing data" :=
  ⟨(claim2_amended_parse_failure_throws ⟨201, "Created", Json.obj []⟩ "mydb" "missing data").1
      rfl rfl,
   (claim2_amended_parse_failure_throws ⟨201, "Created", Json.obj []⟩ "mydb" "missing data").2
      rfl rfl⟩

/-- Claim C3: PscaleClient.fetch never throws on an HTTP response: a
non-2xx response resolves to the Failure value carrying the status, status
text and JSON body, and a 2xx response resolves to the Success value
carrying the parsed body. -/
theorem claim3_fetch_normalizes_http_outcomes (path : String) (init : Option RequestInit)
    (resp : HttpResp) :
    (respOk resp.status = false →
      (psFetch path init resp).1 = FetchResult.failure resp.status resp.statusText resp.body)
    ∧ (respOk resp.status = true →
      (psFetch path init resp).1 = FetchResult.success resp.body) := by
  constructor <;> intro h <;> simp [psFetch, h]

/-- Claim C3 (witness): the theorem applied to a concrete 404 response and
a concrete 200 response. -/
theorem claim3_witness :
    (psFetch "/databases" none ⟨404, "Not Found", Json.null⟩).1
      = FetchResult.failure 404 "Not Found" Json.null
    ∧ (psFetch "/databases" none ⟨200, "OK", Json.null⟩).1
      = FetchResult.success Json.null :=
  ⟨(claim3_fetch_normalizes_http_outcomes "/databases" none ⟨404, "Not Found", Json.null⟩).1 rfl,
   (claim3_fetch_normalizes_http_outcomes "/databases" none ⟨200, "OK", Json.null⟩).2 rfl⟩

/-- Claim C4: over any sequence of model chunks, the chunk handler writes
no frame for a chunk whose first choice finished with tool_calls — however
many such chunks occur — and forwards every other chunk as its frame, in
order. -/
theorem claim4_tool_calls_chunks_suppressed (chunks : List Chunk) :
    chunks.filterMap onChunk
      = (chunks.filter (fun c => !isToolCallsFinish c)).map chunkFrame := by
  induction chunks with
  | nil => rfl
  | cons c cs ih => cases h : isToolCallsFinish c <;> simp [onChunk, h, ih]

/-- Claim C5: a successful listDatabases call whose body parses as N
database records emits exactly one reference event, carrying exactly N
Domain Entity References whose type is the fixed database-entity tag and
whose id and data are the source record's id and the record itself; a
Failure result emits no reference event. -/
theorem claim5_reference_emission (resp : HttpResp) (dbs : List PSDb) :
    (respOk resp.status = true → parseDbList resp.body = Except.ok dbs →
      ((listDatabases resp).1.filter PsEvent.isReference
          = [PsEvent.reference (dbs.map dbRefJson)]
        ∧ (dbs.map dbRefJson).length = dbs.length
        ∧ ∀ db ∈ dbs,
            getField (dbRefJson db) "type" = some (Json.str "planetscale.database")
            ∧ getField (dbRefJson db) "id" = some (Json.str db.id)
            ∧ getField (dbRefJson db) "data" = some (psdbToJson db)))
    ∧ (respOk resp.status = false →
        (listDatabases resp).1.filter PsEvent.isReference = []) := by
  constructor
  · intro h hp
    refine ⟨?_, by simp, ?_⟩
    · simp [listDatabases, psFetch, h, hp, PsEvent.isReference]
    · intro db _
      exact ⟨rfl, rfl, rfl⟩
  · intro h
    simp [listDatabases, psFetch, h, PsEvent.isReference]

/-- Claim C5 (witness): the theorem applied to a concrete 200 response
whose body holds two database records. -/
theorem claim5_witness :
    ((listDatabases
        ⟨200, "OK",
          Json.obj
            [("data",
              Json.arr
                [Json.obj [("id", Json.str "1"), ("name", Json.str "a")],
                 Json.obj [("id", Json.str "2"), ("name", Json.str "b")]])]⟩).1.filter
        PsEvent.isReference
      = [PsEvent.reference ([PSDb.mk "1" "a", PSDb.mk "2" "b"].map dbRefJson)])
    ∧ ([PSDb.mk "1" "a", PSDb.mk "2" "b"].map dbRefJson).length
      = [PSDb.mk "1" "a", PSDb.mk "2" "b"].length
    ∧ ∀ db ∈ [PSDb.mk "1" "a", PSDb.mk "2" "b"],
        getField (dbRefJson db) "type" = some (Json.str "planetscale.database")
        ∧ getField (dbRefJson db) "id" = some (Json.str db.id)
        ∧ getField (dbRefJson db) "data" = some (psdbToJson db) :=
  (claim5_reference_emission
      ⟨200, "OK",
        Json.obj
          [("data",
            Json.arr
              [Json.obj [("id", Json.str "1"), ("name", Json.str "a")],
               Json.obj [("id", Json.str "2"), ("name", Json.str "b")]])]⟩
      [PSDb.mk "1" "a", PSDb.mk "2" "b"]).1 rfl rfl

/-- Claim C6: every PscaleClient.fetch invocation emits exactly two update
events: first, before the request, one naming the method (defaulting to
GET) and path; then, after the response, one narrating the error status on
a non-2xx response or the OK terminator on a 2xx response. -/
theorem claim6_fetch_update_events (path : String) (init : Option RequestInit)
    (resp : HttpResp) :
    (psFetch path init resp).2
      = [PsEvent.update ("`" ++ requestMethod init ++ " " ++ path ++ "..."),
         PsEvent.update
           (if respOk resp.status then "OK`  \n\n"
            else "Error " ++ toString resp.status ++ "`  \n")]
    ∧ requestMethod none = "GET" := by
  refine ⟨?_, rfl⟩
  cases h : respOk resp.status <;> simp [psFetch, h]

/-- Claim C7: the wire shape of every outbound frame. A forwarded model
chunk is framed as `data: ` plus its JSON serialization plus two newlines;
a progress update string is synthesized into a content-delta chunk with
fixed id, object and model, the update text as delta content and a null
finish reason, framed identically; a reference event becomes `event: `
plus the fixed event name, a newline, `data: ` plus the serialized
reference array, and two newlines. The last conjunct checks the
serialization of a concrete synthesized chunk against its literal JSON
text. -/
theorem claim7_wire_frames (c : Chunk) (now : Nat) (u : String) (refs : List Json) :
    chunkFrame c = "data: " ++ serialize (chunkToJson c) ++ "\n\n"
    ∧ frameOf (RunEvent.updateEv now u) = some (onUpdate now u)
    ∧ onUpdate now u = chunkFrame (mkUpdateChunk now u)
    ∧ (mkUpdateChunk now u).id = "chunk"
    ∧ (mkUpdateChunk now u).object = "chat.completion.chunk"
    ∧ (mkUpdateChunk now u).model = "gpt-4-1106-preview"
    ∧ (mkUpdateChunk now u).choices
      = [{ index := 0, delta := { content := some u }, finish_reason := none }]
    ∧ frameOf (RunEvent.referenceEv refs) = some (onReference refs)
    ∧ onReference refs
      = "event: copilot_references\ndata: " ++ serialize (Json.arr refs) ++ "\n\n"
    ∧ serialize (chunkToJson (mkUpdateChunk 0 "hi"))
      = "\x7b\"id\":\"chunk\",\"object\":\"chat.completion.chunk\",\"created\":1,\"model\":\"gpt-4-1106-preview\",\"choices\":[\x7b\"index\":0,\"delta\":\x7b\"content\":\"hi\"\x7d,\"finish_reason\":null\x7d]\x7d" :=
  ⟨rfl, rfl, rfl, rfl, rfl, rfl, rfl, rfl, rfl, by decide⟩

/-- Claim C8 (counterexample): the claim names the seven tools in
kebab-case (list-databases and so on), but the registry declares them under
their camelCase function names; in particular no declared tool is named
list-databases. -/
theorem claim8_tool_names_cex :
    toolRegistry.map ToolDecl.name
      = ["listDatabases", "getDatabase", "listBranches", "getBranch",
         "getBranchSchema", "listDeployRequests", "getDeployRequest"]
    ∧ "list-databases" ∉ toolRegistry.map ToolDecl.name := by
  refine ⟨rfl, ?_⟩
  decide

/-- Claim C8 (amended): the registry declares exactly seven tools under
their camelCase names — listDatabases with no parameters, getDatabase(name),
listBranches(name), getBranch(name, branch), getBranchSchema(name, branch),
listDeployRequests(name) and getDeployRequest(name, requestID) — each with
all of its declared parameters listed as required in its schema, and each
handler delegating to exactly one upstream client operation on the
corresponding path. -/
theorem claim8_amended_registry (a : ToolArgs) :
    toolRegistry.length = 7
    ∧ toolRegistry.map ToolDecl.name
      = ["listDatabases", "getDatabase", "listBranches", "getBranch",
         "getBranchSchema", "listDeployRequests", "getDeployRequest"]
    ∧ toolRegistry.map (fun t => t.properties.map ToolParam.pname)
      = [[], ["name"], ["name"], ["name", "branch"], ["name", "branch"],
         ["name"], ["name", "requestID"]]
    ∧ toolRegistry.map ToolDecl.required
      = [[], ["name"], ["name"], ["name", "branch"], ["name", "branch"],
         ["name"], ["name", "requestID"]]
    ∧ toolRegistry.map (fun t => (t.handler a).path)
      = ["/databases",
         "/databases/" ++ a.name,
         "/databases/" ++ a.name ++ "/branches",
         "/databases/" ++ a.name ++ "/branches/" ++ a.branch,
         "/databases/" ++ a.name ++ "/branches/" ++ a.branch ++ "/schema",
         "/databases/" ++ a.name ++ "/deploy-requests",
         "/databases/" ++ a.name ++ "/deploy-requests/" ++ toString a.requestID] :=
  ⟨rfl, rfl, rfl, rfl, rfl⟩

/-- Claim C9: cutting a run trace at an abort leaves the outbound frames
unchanged — nothing after the abort is ever written — and neither the
abort nor the end event writes any frame of its own, so the stream closes
with no synthetic error or terminal frame; symmetrically for end. -/
theorem claim9_abort_and_end_close_stream (pre post : List RunEvent) :
    outFrames (pre ++ RunEvent.abortEv :: post) = outFrames (pre ++ [RunEvent.abortEv])
    ∧ outFrames (pre ++ RunEvent.endEv :: post) = outFrames (pre ++ [RunEvent.endEv])
    ∧ frameOf RunEvent.abortEv = none
    ∧ frameOf RunEvent.endEv = none := by
  refine ⟨?_, ?_, rfl, rfl⟩
  · unfold outFrames
    rw [delivered_cut_abort]
  · unfold outFrames
    rw [delivered_cut_end]

/-- Claim C10: the chunk synthesized for a progress update has the literal
id chunk, object chat.completion.chunk, model gpt-4-1106-preview, a null
finish reason, and a created field equal to the day of the month of the
current instant — an integer between 1 and 31, not a Unix timestamp. -/
theorem claim10_created_day_of_month (now : Nat) (u : String) :
    (mkUpdateChunk now u).id = "chunk"
    ∧ (mkUpdateChunk now u).object = "chat.completion.chunk"
    ∧ (mkUpdateChunk now u).model = "gpt-4-1106-preview"
    ∧ ((mkUpdateChunk now u).choices.map Choice.finish_reason) = [none]
    ∧ (mkUpdateChunk now u).created = jsGetDate now
    ∧ 1 ≤ (mkUpdateChunk now u).created
    ∧ (mkUpdateChunk now u).created ≤ 31 :=
  ⟨rfl, rfl, rfl, rfl, rfl, (jsGetDate_bounds now).1, (jsGetDate_bounds now).2⟩

end DbAgent
